import Mathlib

/-!
Shallow embedding of the generation-orchestration pipeline of the
`omni.ai.viewport.core` extension (ComfyUplift model, viewport buffer
capture) together with theorems settling the specification claims.

Python dictionaries are embedded as insertion-ordered association lists,
Python object identity for graph nodes is embedded with an explicit heap
of nodes addressed by `Nat` references (so that the shallow `dict.copy()`
in `_generate_prompt` is modelled faithfully: the top-level mapping is
fresh, the node objects are shared).
-/

namespace ComfyUplift

/-- A dynamically typed Python value as stored in the parameter store and
in template node input slots: a string, or a non-string scalar (the
numeric payload is irrelevant to every claim, so one constructor keeps
all non-string values). -/
inductive PVal where
  | vstr : String → PVal
  | vnum : Int → PVal
deriving DecidableEq, Repr

/-- True exactly on string values. -/
def PVal.isStr : PVal → Bool
  | .vstr _ => true
  | .vnum _ => false

/-- Python `d[k]` read on an insertion-ordered dict. -/
def dictGet {α : Type} (d : List (String × α)) (k : String) : Option α :=
  (d.find? (fun kv => kv.1 == k)).map (fun kv => kv.2)

/-- Python `d[k] = v` on an insertion-ordered dict: overwrite in place
when the key exists, append otherwise. -/
def dictSet {α : Type} (d : List (String × α)) (k : String) (v : α) :
    List (String × α) :=
  if d.any (fun kv => kv.1 == k) then
    d.map (fun kv => if kv.1 == k then (k, v) else kv)
  else
    d ++ [(k, v)]

/-- Python `d.update(u)`: `dictSet` each entry of `u` in order. -/
def dictUpdate {α : Type} (d u : List (String × α)) : List (String × α) :=
  u.foldl (fun acc kv => dictSet acc kv.1 kv.2) d

/-- Python `needle in hay` on strings: substring containment. -/
def pyIn (needle hay : String) : Bool :=
  decide (needle.toList <:+: hay.toList)

/-- Python `text.split(sep)` for a single-character separator: split at
every occurrence, keeping empty pieces. -/
def splitOnChar (sep : Char) : List Char → List (List Char)
  | [] => [[]]
  | c :: rest =>
    match splitOnChar sep rest with
    | [] => [[]]
    | w :: ws => if c == sep then [] :: w :: ws else (c :: w) :: ws

/-- Python `t.split(sep)` for a single-character `sep`. -/
def pySplit (t : String) (sep : Char) : List String :=
  (splitOnChar sep t.toList).map String.mk

/-- Python `text.strip()`. -/
def pyStrip (t : String) : String :=
  String.mk
    (((t.toList.dropWhile Char.isWhitespace).reverse.dropWhile
        Char.isWhitespace).reverse)

/-- Python `text.startswith(p)`. -/
def pyStartsWith (t p : String) : Bool :=
  p.toList.isPrefixOf t.toList

/-! ## Safety screen (`ComfyUplift._is_safe`) -/

/-- The four punctuation characters replaced by spaces in `_is_safe`:
double quote, single quote, comma, period. -/
def punctChars : List Char := [Char.ofNat 34, Char.ofNat 39, Char.ofNat 44, Char.ofNat 46]

/-- The adjusted text of `_is_safe`: each of the four punctuation
characters replaced by a space. -/
def adjustText (t : String) : String :=
  String.mk
    (t.toList.map (fun c => if punctChars.contains c then Char.ofNat 32 else c))

/-- Modelled from the spec: the maintained disallowed-term list loaded at
startup from `data/profanity_wordlist.txt`, a repository data file that is
not under `src/`; a small representative list stands in for it. -/
def badWords : List String := ["darn", "heck", "golly"]

/-- Split a character list at whitespace (keeping empty pieces). -/
def splitWsAux (acc : List Char) : List Char → List String
  | [] => [String.mk acc.reverse]
  | c :: rest =>
    if c.isWhitespace then String.mk acc.reverse :: splitWsAux [] rest
    else splitWsAux (c :: acc) rest

/-- The whitespace-delimited words of a text. -/
def wordsOf (t : String) : List String :=
  (splitWsAux [] t.toList).filter (fun w => w ≠ "")

/-- Modelled from the spec: `better_profanity.profanity.contains_profanity`
(third-party library, not under `src/`): the text contains a
disallowed term as a whitespace-delimited word. -/
def containsProfanity (t : String) : Bool :=
  (wordsOf t).any (fun w => badWords.contains w)

/-- Embeds `ComfyUplift._is_safe`: reject when either the raw text or the
punctuation-adjusted variant contains a disallowed term. -/
def isSafe (t : String) : Bool :=
  if containsProfanity t || containsProfanity (adjustText t) then false
  else true

/-! ## Polling (`ComfyUplift._get_images`) -/

/-- One entry of a node's `images` list in the job history; each of the
three keys may be absent (entries missing one are skipped). -/
structure ArtifactRef where
  filename : Option String
  subfolder : Option String
  atype : Option String
deriving DecidableEq, Repr

/-- The bytes returned by `_get_image`: the fetch is a pure lookup keyed
by `(filename, subfolder, type)`, so the key triple stands for the
fetched artifact payload. -/
abbrev ArtifactData := String × String × String

/-- One graph-node output in the job history; the `images` key may be
absent. -/
structure NodeOutput where
  images : Option (List ArtifactRef)
deriving DecidableEq, Repr

/-- The value `history[prompt_id]` for one poll attempt: the per-node `outputs`
mapping in Python-dict iteration order. -/
structure HistoryEntry where
  outputs : List (String × NodeOutput)
deriving DecidableEq, Repr

/-- The inner per-node loop of `_get_images`: iterate the node's `images`
list, overwriting `output_data` with a fetched preview when
`allow_preview` holds and the type is `temp`, and with the fetched image
when the type is `output`; entries missing a key are skipped. -/
def processNode (allowPreview : Bool) (imgs : List ArtifactRef) :
    Option ArtifactData :=
  imgs.foldl
    (fun acc img =>
      match img.filename, img.subfolder, img.atype with
      | some f, some sf, some ty =>
          let acc1 := if allowPreview && ty == "temp" then some (f, sf, ty) else acc
          if ty == "output" then some (f, sf, ty) else acc1
      | _, _, _ => acc)
    none

/-- The per-attempt body of `_get_images` on a successful history fetch:
append each node's recovered artifact (if any) to `output_images`. -/
def collectImages (allowPreview : Bool) (h : HistoryEntry) :
    List ArtifactData :=
  h.outputs.foldl
    (fun acc kv =>
      match kv.2.images with
      | none => acc
      | some imgs =>
          match processNode allowPreview imgs with
          | none => acc
          | some d => acc ++ [d])
    []

/-- The outcome of `_get_images`: the recovered images, the
`TimeoutError` raised on the last failed attempt, or the
`RuntimeError("No output images")`. -/
inductive PollResult where
  | ok : List ArtifactData → PollResult
  | timeoutErr : String → PollResult
  | noOutput : PollResult
deriving DecidableEq, Repr

/-- The `for try_id in range(num_try)` loop of `_get_images`:
`attempt i` is the result of the history fetch (plus `[prompt_id]`
indexing) on attempt `i` — `Except.error` when it raises. A failed
attempt retries unless it is the last one, which raises the timeout
error; a successful attempt breaks out of the loop, after which an empty
`output_images` raises the no-output error. -/
def getImagesFrom (allowPreview : Bool)
    (attempt : Nat → Except String HistoryEntry) :
    Nat → Nat → PollResult
  | _, 0 => .noOutput
  | tryId, fuel + 1 =>
    match attempt tryId with
    | .error e =>
        if fuel == 0 then .timeoutErr e
        else getImagesFrom allowPreview attempt (tryId + 1) fuel
    | .ok h =>
        let imgs := collectImages allowPreview h
        if imgs.isEmpty then .noOutput else .ok imgs

/-- Embeds `ComfyUplift._get_images` with its `num_try = timeout // interval`
attempt budget (defaults `interval=1`, `timeout=600`,
`allow_preview=False` at the call site in `generate`). -/
def getImages (allowPreview : Bool)
    (attempt : Nat → Except String HistoryEntry)
    (interval timeout : Nat) : PollResult :=
  getImagesFrom allowPreview attempt 0 (timeout / interval)

/-! ## Job template, parameter specs, and the node heap -/

/-- A template graph node: a `_meta.title` and an `inputs` dict. -/
structure CNode where
  title : String
  inputs : List (String × PVal)
deriving DecidableEq, Repr

/-- The mutable node store: Python object identity is a `Nat` address
into this list. -/
abbrev Heap := List CNode

/-- The top-level template dict `_comfy_json`: node id to node
reference. `dict.copy()` copies this mapping but shares the referenced
nodes. -/
abbrev CTemplate := List (String × Nat)

/-- A parameter spec entry of `_comfy_parameters`; `control_id` and
`buffer_name` are optional keys. -/
structure ParamSpec where
  name : String
  control_name : String
  input_name : String
  ptype : String
  default_value : PVal
  buffer_name : Option String
  control_id : Option String
deriving DecidableEq, Repr

/-- The template graph a template-plus-heap denotes: each node id paired
with the node its reference points to. Two states give the same stored
template exactly when this agrees. -/
def derefTemplate (tmpl : CTemplate) (heap : Heap) :
    List (String × Option CNode) :=
  tmpl.map (fun kv => (kv.1, heap.get? kv.2))

/-- Write `heap[ref].inputs[iname] = v` (a no-op on a dangling
reference, which cannot arise from `loadWorkflow`). -/
def heapSetInput (heap : Heap) (ref : Nat) (iname : String) (v : PVal) :
    Heap :=
  match heap.get? ref with
  | none => heap
  | some n => heap.set ref { n with inputs := dictSet n.inputs iname v }

/-! ## `ComfyUplift._generate_prompt`

`updated_prompt = self._comfy_json.copy()` is a shallow copy: the
top-level mapping is fresh but every node reference is shared with the
stored template, so the slot assignments below write into the shared
heap. -/

/-- The inner `for param in self._comfy_parameters` loop for one
`generation_params` item: on the first spec whose `name` equals the key,
skip it if it has no `control_id` (`continue`), otherwise assign the
bound node's input slot (through the shared heap) and `break`; image
specs take the viewport buffer stored under their `control_name` (a
`KeyError` if absent), other specs take the item's value. -/
def mergeOne (tmpl : CTemplate) (vp : List (String × String))
    (key : String) (v : PVal) (heap : Heap) :
    List ParamSpec → Heap × Option String
  | [] => (heap, none)
  | p :: rest =>
    if key == p.name then
      match p.control_id with
      | none => mergeOne tmpl vp key v heap rest
      | some cid =>
        if p.ptype == "image" then
          match dictGet vp p.control_name with
          | none => (heap, some "KeyError: viewport buffer")
          | some buf =>
            match dictGet tmpl cid with
            | none => (heap, some "KeyError: control_id")
            | some ref => (heapSetInput heap ref p.input_name (.vstr buf), none)
        else
          match dictGet tmpl cid with
          | none => (heap, some "KeyError: control_id")
          | some ref => (heapSetInput heap ref p.input_name v, none)
    else mergeOne tmpl vp key v heap rest

/-- Embeds `ComfyUplift._generate_prompt` on the heap: thread the (shared) node
heap through the `generation_params` loop; an exception aborts the loop
but keeps the writes already made. Returns the heap after the call and
the raised exception, if any. -/
def generatePrompt (tmpl : CTemplate) (specs : List ParamSpec)
    (vp : List (String × String)) (heap : Heap) :
    List (String × PVal) → Heap × Option String
  | [] => (heap, none)
  | kv :: rest =>
    match mergeOne tmpl vp kv.1 kv.2 heap specs with
    | (h, some e) => (h, some e)
    | (h, none) => generatePrompt tmpl specs vp h rest

/-! ## `ComfyUplift.load_workflow` and spec derivation -/

/-- The CAVA-annotation parse of `_get_params_from_workflow` for one
node: `title.split("(")[1].split(")")[0]` is the slot kind,
`title.split(":")[1].strip()` is the parameter name (each indexing
raises `IndexError` on a malformed title); the default value is read
from the node's input slot (`KeyError` if missing). Non-`CAVA` titles
yield nothing. -/
def deriveSpec (node : CNode) : Except String (Option ParamSpec) :=
  if pyStartsWith node.title "CAVA" then
    match (pySplit node.title (Char.ofNat 40)).get? 1 with
    | none => .error "IndexError: list index out of range"
    | some s1 =>
      let inputName := (pySplit s1 (Char.ofNat 41)).headD ""
      match (pySplit node.title (Char.ofNat 58)).get? 1 with
      | none => .error "IndexError: list index out of range"
      | some s2 =>
        let pname := pyStrip s2
        let inputType :=
          if pyIn "image" inputName then "image"
          else if pyIn "text" inputName then "string"
          else "float"
        match dictGet node.inputs inputName with
        | none => .error "KeyError: input"
        | some dv =>
          let bufName :=
            if inputType == "image" then
              if pyIn "RGB" pname then some "LdrColor"
              else if pyIn "Depth" pname then some "DepthLinearized"
              else none
            else none
          .ok (some ⟨pname, node.title, inputName, inputType, dv, bufName, none⟩)
  else .ok none

/-- Embeds `ComfyUplift._get_params_from_workflow`: scan every node in order and
collect the specs derived from `CAVA`-annotated titles; a workflow with
no annotated node yields the empty list without error. -/
def getParamsFromWorkflow :
    List (String × CNode) → Except String (List ParamSpec)
  | [] => .ok []
  | kv :: rest =>
    match deriveSpec kv.2 with
    | .error e => .error e
    | .ok none => getParamsFromWorkflow rest
    | .ok (some p) =>
        match getParamsFromWorkflow rest with
        | .error e => .error e
        | .ok ps => .ok (p :: ps)

/-- Embeds `ComfyUplift._identifyControls`: for each template node (outer loop)
set `control_id` on every spec whose `control_name` contains the node's
title as a substring — a later matching node overwrites an earlier
assignment. Unmatched specs are only warned about. -/
def identifyControls (json : List (String × CNode))
    (specs : List ParamSpec) : List ParamSpec :=
  json.foldl
    (fun ps kv =>
      ps.map (fun p =>
        if pyIn kv.2.title p.control_name then { p with control_id := some kv.1 }
        else p))
    specs

/-- Embeds `AbstractUpliftModel._init_parameters`: the parameter store mapping
each spec's name to its default value (later duplicates overwrite). -/
def initParameters (specs : List ParamSpec) : List (String × PVal) :=
  specs.foldl (fun d p => dictSet d p.name p.default_value) []

/-- The `ComfyUplift` fields relevant to generation. -/
structure OrchState where
  busy : Bool
  parameters : List (String × PVal)
  viewportBuffers : List (String × String)
  comfyParameters : List ParamSpec
  template : CTemplate
  heap : Heap
deriving DecidableEq, Repr

/-- Embeds `ComfyUplift.load_workflow` (as reached from `__init__`):
`wf` is the parsed workflow file (`none` when the file is missing, which
raises), `sidecar` the parsed `.spec` file when present; without a
sidecar the spec list is auto-derived, then controls are identified and
the parameters reset. -/
def loadWorkflow (wf : Option (List (String × CNode)))
    (sidecar : Option (List ParamSpec)) : Except String OrchState :=
  match wf with
  | none => .error "Failure to open ComfyUI Workflow API Format file"
  | some json =>
    let specs0 : Except String (List ParamSpec) :=
      match sidecar with
      | some s => .ok s
      | none => getParamsFromWorkflow json
    match specs0 with
    | .error e => .error e
    | .ok specs =>
      let specs1 := identifyControls json specs
      .ok
        { busy := false
          parameters := initParameters specs1
          viewportBuffers := []
          comfyParameters := specs1
          template := json.enum.map (fun p => (p.2.1, p.1))
          heap := json.map (fun kv => kv.2) }

/-! ## `ComfyUplift.generate` -/

/-- An RGBA pixel as produced by `list(rgba_image.getdata())`. -/
abbrev RGBA := Nat × Nat × Nat × Nat

/-- The safety-rejection placeholder: `np.zeros([1024, 1024])` is an
all-zero byte buffer, and reinterpreting it through
`Image.fromarray(..., mode="RGBA")` yields a 1024×1024 image whose every
pixel is `(0, 0, 0, 0)`. -/
def placeholderPixels : List RGBA :=
  List.replicate (1024 * 1024) ((0, 0, 0, 0) : RGBA)

/-- The concatenation `merged_prompts += self._parameters[key] + "\n"`
over the parameter store in order; a non-string value raises a
`TypeError` at its turn. -/
def concatParamsAux (acc : String) :
    List (String × PVal) → Except String String
  | [] => .ok acc
  | kv :: rest =>
    match kv.2 with
    | .vstr s => concatParamsAux (acc ++ s ++ "\n") rest
    | .vnum _ => .error "TypeError: can only concatenate str"

/-- The full safety concatenation of `generate` (starting from `""`). -/
def concatParams (ps : List (String × PVal)) : Except String String :=
  concatParamsAux "" ps

/-- The externals touched by one `generate` call: call-time overrides,
the `POST /prompt` submission result, the per-attempt history fetch, and
the PIL decode of the first fetched artifact (pixels, width, height). -/
structure GenEnv where
  kwargs : List (String × PVal)
  submit : Except String String
  attempt : Nat → Except String HistoryEntry
  decodeImage : ArtifactData → Except String (List RGBA × Nat × Nat)

/-- What one `generate` call returns to its caller: the busy-guard early
return (warning log, `None`), a top-level caught exception (error log,
`None`), the safety placeholder tuple, the decoded result tuple, or the
fall-through `None` of the dead `if output_images:` false branch. -/
inductive GenOutcome where
  | busySignal : GenOutcome
  | errorLogged : String → GenOutcome
  | safetyPlaceholder : List RGBA → List Nat → GenOutcome
  | ok : List RGBA → List Nat → GenOutcome
  | noneReturn : GenOutcome
deriving DecidableEq, Repr

/-- One `generate` call: the outcome, the state after the call, and the
number of job submissions issued to the backend. -/
structure GenResult where
  outcome : GenOutcome
  state : OrchState
  submits : Nat
deriving DecidableEq, Repr

/-- The dict `generation_params = self._parameters.copy()`, then
`update(kwargs)`, then `update(self._viewport_buffers)`. -/
def genParams (st : OrchState) (env : GenEnv) : List (String × PVal) :=
  dictUpdate (dictUpdate st.parameters env.kwargs)
    (st.viewportBuffers.map (fun kv => (kv.1, PVal.vstr kv.2)))

/-- The `try` body of `generate` (entered with `busy` just set): merge
into the template (through the shared heap), safety concatenation and
screen, submission, polling, decode; every exception is caught by the
top-level handler and logged, and the `finally` clears `busy` on every
path. -/
def generateBody (st : OrchState) (env : GenEnv) : GenResult :=
  match generatePrompt st.template st.comfyParameters st.viewportBuffers
      st.heap (genParams st env) with
  | (heap1, some e) => ⟨.errorLogged e, { st with heap := heap1, busy := false }, 0⟩
  | (heap1, none) =>
    let st1 := { st with heap := heap1, busy := false }
    match concatParams st.parameters with
    | .error e => ⟨.errorLogged e, st1, 0⟩
    | .ok merged =>
      if 0 < merged.length && !isSafe merged then
        ⟨.safetyPlaceholder placeholderPixels [1024, 1024], st1, 0⟩
      else
        match env.submit with
        | .error e => ⟨.errorLogged e, st1, 1⟩
        | .ok _ =>
          match getImages false env.attempt 1 600 with
          | .timeoutErr e => ⟨.errorLogged ("TIMEOUT (600): " ++ e), st1, 1⟩
          | .noOutput => ⟨.errorLogged "No output images", st1, 1⟩
          | .ok [] => ⟨.noneReturn, st1, 1⟩
          | .ok (img0 :: _) =>
            match env.decodeImage img0 with
            | .error e => ⟨.errorLogged e, st1, 1⟩
            | .ok (pix, w, h) => ⟨.ok pix [w, h], st1, 1⟩

/-- Embeds `ComfyUplift.generate`: the busy guard (log a warning and return
`None` while a call is in flight), then the guarded body (the body
itself never reads the flag it just set, so it is given the incoming
state; every branch of the body records the `finally`-cleared flag). -/
def generate (st : OrchState) (env : GenEnv) : GenResult :=
  if st.busy then ⟨.busySignal, st, 0⟩
  else generateBody st env

end ComfyUplift

namespace ViewportBuffersCapture

/-- A 32-bit float depth sample as seen by the decoder: NaN or a finite
value (modelled as a rational). -/
inductive DepthSample where
  | nan : DepthSample
  | fin : ℚ → DepthSample
deriving DecidableEq, Repr

/-- The "no data" magnitude used by `_on_viewport_captured`: `3.402e38`. -/
def sentinel : ℚ := mkRat (3402 * 10 ^ 35) 1

/-- The two masked assignments
`depth_array[depth_array <= -3.402e38] = np.nan` and
`depth_array[depth_array >= 3.402e38] = np.nan` on one sample
(comparisons against NaN are false, so NaN stays NaN). -/
def applySentinel : DepthSample → DepthSample
  | .nan => .nan
  | .fin q => if q ≤ -sentinel then .nan else if sentinel ≤ q then .nan else .fin q

/-- The sign flip `depth_array = -depth_array` on one sample. -/
def negateSample : DepthSample → DepthSample
  | .nan => .nan
  | .fin q => .fin (-q)

/-- Membership in `depth_array[np.isfinite(depth_array) & (depth_array < 0)]`. -/
def isFiniteNeg : DepthSample → Bool
  | .nan => false
  | .fin q => decide (q < 0)

/-- The value `np.where(np.isfinite(depth_array), depth_array, 0)` on one sample. -/
def cleanVal : DepthSample → ℚ
  | .nan => 0
  | .fin q => q

/-- Sentinel removal followed by the sign flip `depth_array = -depth_array`. -/
def flippedDepth (buf : List DepthSample) : List DepthSample :=
  (buf.map applySentinel).map negateSample

/-- The `R32_SFLOAT` branch of
`ViewportBuffersCapture._on_viewport_captured`, per sample, producing
the 8-bit grayscale pixel values of the encoded `"L"` image: sentinel
removal, sign flip, then — when some finite negative sample survives —
clamped linear remapping from the absolute range
`[depth_min, depth_max] = [-600, -200]` (the second `normalized_depth`
assignment, which overwrites the first) scaled to 8 bits; when no finite
negative sample survives, `np.ones_like` gives an all-white image. The
branch arithmetic is exact here where the code rounds in float64; the
all-sentinel path settled below involves no rounding. -/
def decodeDepth (buf : List DepthSample) : List ℕ :=
  if ((flippedDepth buf).filter isFiniteNeg).isEmpty then
    buf.map (fun _ => 255)
  else
    (flippedDepth buf).map (fun v =>
      (max 0 (min 1 ((cleanVal v - (-600)) / ((-200) - (-600)))) * 255).floor.toNat)

/-- A sample the claim calls "at or beyond the no-data sentinel":
NaN, or finite with magnitude at least `3.402e38`. -/
def atSentinel : DepthSample → Bool
  | .nan => true
  | .fin q => decide (sentinel ≤ |q|)

/-- A concrete all-sentinel depth buffer: two finite samples of
magnitude `4e38` and one NaN. -/
def wBuf : List DepthSample :=
  [.fin (mkRat (4 * 10 ^ 38) 1), .nan, .fin (-(mkRat (4 * 10 ^ 38) 1))]

end ViewportBuffersCapture

namespace ComfyUplift

/-- Characterization used by the amended C8: the last node in template
iteration order whose title occurs as a substring of the control name,
starting from a previous assignment `acc`. -/
def lastMatchAux (acc : Option String) (json : List (String × CNode))
    (cn : String) : Option String :=
  json.foldl (fun a kv => if pyIn kv.2.title cn then some kv.1 else a) acc

/-- The last node in template iteration order whose title occurs as a
substring of `cn` (none when no node matches). -/
def lastTitleMatch (json : List (String × CNode)) (cn : String) :
    Option String :=
  lastMatchAux none json cn

/-! Concrete inputs used by counterexamples and witnesses. -/

/-- Poll scenario of C3: attempt 1 (index 0) succeeds with only a
`temp` artifact; every later attempt succeeds with an `output`
artifact. -/
def wAttReady : Nat → Except String HistoryEntry := fun n =>
  if n == 0 then
    .ok ⟨[("9", ⟨some [⟨some "prev.png", some "", some "temp"⟩]⟩)]⟩
  else
    .ok ⟨[("9", ⟨some [⟨some "out.png", some "", some "output"⟩]⟩)]⟩

/-- Every poll attempt raises. -/
def wAttErr : Nat → Except String HistoryEntry := fun _ => .error "boom"

/-- Every poll attempt succeeds with one `output` artifact. -/
def wAttOk : Nat → Except String HistoryEntry := fun _ =>
  .ok ⟨[("9", ⟨some [⟨some "out.png", some "", some "output"⟩]⟩)]⟩

/-- Every poll attempt succeeds with no node outputs at all. -/
def wAttEmpty : Nat → Except String HistoryEntry := fun _ => .ok ⟨[]⟩

/-- Agrees with `wAttOk` on attempt 0 and raises afterwards. -/
def wAttFirstOnly : Nat → Except String HistoryEntry := fun n =>
  if n == 0 then wAttOk 0 else .error "later"

/-- Template graph for the C8 counterexample: the node titled
`CAVA(text): prompt2` comes before the node titled
`CAVA(text): prompt`. -/
def wJson8 : List (String × CNode) :=
  [("1", ⟨"CAVA(text): prompt2", [("text", .vstr "b")]⟩),
   ("2", ⟨"CAVA(text): prompt", [("text", .vstr "a")]⟩)]

/-- The two parameter specs derived from `wJson8` (before control
identification). -/
def wSpecs8 : List ParamSpec :=
  [⟨"prompt", "CAVA(text): prompt", "text", "string", .vstr "a", none, none⟩,
   ⟨"prompt2", "CAVA(text): prompt2", "text", "string", .vstr "b", none, none⟩]

/-- Heap for the C6 counterexample: one node whose `text` slot holds
`"old"`. -/
def wHeap6 : Heap := [⟨"CAVA(text): prompt", [("text", .vstr "old")]⟩]

/-- Template mapping for the C6 counterexample. -/
def wTmpl6 : CTemplate := [("3", 0)]

/-- Spec bound to node `"3"` for the C6 counterexample. -/
def wSpec6 : ParamSpec :=
  ⟨"prompt", "CAVA(text): prompt", "text", "string", .vstr "old", none, some "3"⟩

/-- Orchestrator state with a single unsafe text parameter and an empty
template. -/
def wStUnsafe : OrchState :=
  { busy := false
    parameters := [("prompt", .vstr "darn")]
    viewportBuffers := []
    comfyParameters := []
    template := []
    heap := [] }

/-- As `wStUnsafe` but with a safe text parameter. -/
def wStSafe : OrchState := { wStUnsafe with parameters := [("prompt", .vstr "kitchen")] }

/-- As `wStUnsafe` but with a single non-string (numeric) parameter. -/
def wStFloat : OrchState := { wStUnsafe with parameters := [("strength", .vnum 7)] }

/-- As `wStUnsafe` but already busy. -/
def wStBusy : OrchState := { wStUnsafe with busy := true }

/-- A benign environment: no overrides, submission succeeds, the first
poll attempt recovers an output artifact, decoding yields a 2×2 image. -/
def wEnv : GenEnv :=
  { kwargs := []
    submit := .ok "pid"
    attempt := wAttOk
    decodeImage := fun _ => .ok ([(1, 2, 3, 4)], 2, 2) }

end ComfyUplift

open ComfyUplift ViewportBuffersCapture

/-! # Shared lemmas -/

/-- Writing a key into the dict makes it readable back. -/
theorem dictGet_dictSet {α : Type} (d : List (String × α)) (k : String)
    (v : α) : dictGet (dictSet d k v) k = some v := by
  unfold dictSet
  split
  · rename_i hany
    induction d with
    | nil => simp at hany
    | cons kv rest ih =>
      by_cases hk : kv.1 == k
      · simp [dictGet, List.find?, hk]
      · simp only [List.any_cons, hk, Bool.false_or] at hany
        simpa [dictGet, List.find?, hk] using ih hany
  · rename_i hany
    induction d with
    | nil => simp [dictGet, List.find?]
    | cons kv rest ih =>
      simp only [List.any_cons, Bool.or_eq_true, not_or] at hany
      have hk : (kv.1 == k) = false := by
        cases h : kv.1 == k
        · rfl
        · exact absurd h hany.1
      simp only [List.cons_append, dictGet, List.find?, hk]
      have := ih (by simp [hany.2])
      simpa [dictGet] using this

/-- Lemma: `concatParamsAux` raises the `TypeError` exactly when a non-string
value is present. -/
theorem concatParamsAux_error (ps : List (String × PVal)) :
    ∀ acc, (∃ kv ∈ ps, kv.2.isStr = false) →
      concatParamsAux acc ps = .error "TypeError: can only concatenate str" := by
  induction ps with
  | nil => intro acc h; simp at h
  | cons kv rest ih =>
    intro acc h
    rcases h with ⟨kv2, hmem, hns⟩
    rcases List.mem_cons.mp hmem with h1 | h1
    · subst h1
      cases hkv : kv2.2 with
      | vstr s => rw [hkv] at hns; simp [PVal.isStr] at hns
      | vnum n => simp [concatParamsAux, hkv]
    · cases hkv : kv.2 with
      | vstr s =>
        simp only [concatParamsAux, hkv]
        exact ih _ ⟨kv2, h1, hns⟩
      | vnum n => simp [concatParamsAux, hkv]

/-- A successful concatenation forces every stored value to be a
string. -/
theorem concatParamsAux_ok (ps : List (String × PVal)) :
    ∀ acc m, concatParamsAux acc ps = .ok m →
      ∀ kv ∈ ps, kv.2.isStr = true := by
  induction ps with
  | nil => intro acc m _ kv hmem; simp at hmem
  | cons kv0 rest ih =>
    intro acc m hok kv hmem
    cases hkv : kv0.2 with
    | vstr s =>
      rcases List.mem_cons.mp hmem with h1 | h1
      · subst h1; simp [hkv, PVal.isStr]
      · exact ih _ m (by simpa [concatParamsAux, hkv] using hok) kv h1
    | vnum n => simp [concatParamsAux, hkv] at hok

/-! # Claim theorems -/

/-- Claim C5: the safety screen rejects a text when either the raw text or
its punctuation-adjusted variant contains a disallowed term (including
a term written with surrounding quotes or commas), and accepts a text
when neither variant matches; `is_safe("this is fine")` is true. -/
theorem C5_safety_screen :
    (∀ t, containsProfanity t = true → isSafe t = false) ∧
    (∀ t, containsProfanity (adjustText t) = true → isSafe t = false) ∧
    (∀ t, containsProfanity t = false →
      containsProfanity (adjustText t) = false → isSafe t = true) ∧
    isSafe "this is fine" = true ∧
    isSafe "a \"darn\" thing" = false ∧
    isSafe "darn, indeed" = false := by
  refine ⟨?_, ?_, ?_, by decide, by decide, by decide⟩
  · intro t h; simp [isSafe, h]
  · intro t h; simp [isSafe, h]
  · intro t h1 h2; simp [isSafe, h1, h2]

/-- Witness for C5 at concrete texts. -/
theorem C5_safety_screen_witness :
    isSafe "say darn now" = false ∧ isSafe "a \"darn\" thing" = false ∧
      isSafe "this is fine" = true :=
  ⟨C5_safety_screen.1 "say darn now" (by decide),
   C5_safety_screen.2.1 "a \"darn\" thing" (by decide),
   C5_safety_screen.2.2.1 "this is fine" (by decide) (by decide)⟩

/-- Claim C7: loading fails with the template-load error when the workflow
graph file is missing; but with no sidecar spec and no `CAVA`
annotations in any node title, loading succeeds silently with an empty
parameter spec (the code's own comment says this "need to error
clearly"), instead of reporting a spec-derivation error. -/
theorem C7_load_failure_modes :
    loadWorkflow none none =
      .error "Failure to open ComfyUI Workflow API Format file" ∧
    loadWorkflow (some [("3", ⟨"KSampler", [("seed", .vnum 5)]⟩)]) none =
      .ok { busy := false, parameters := [], viewportBuffers := []
            comfyParameters := [], template := [("3", 0)]
            heap := [⟨"KSampler", [("seed", .vnum 5)]⟩] } :=
  ⟨rfl, rfl⟩

/-- Every sample at the sentinel (or NaN) becomes NaN after sentinel
removal and sign flip. -/
theorem flipped_nan_of_atSentinel (s : DepthSample)
    (h : atSentinel s = true) : negateSample (applySentinel s) = .nan := by
  cases s with
  | nan => rfl
  | fin q =>
    have habs : sentinel ≤ |q| := of_decide_eq_true h
    unfold applySentinel
    by_cases h1 : q ≤ -sentinel
    · simp [h1, negateSample]
    · have h2 : sentinel ≤ q := by
        rcases le_abs.mp habs with h3 | h3
        · exact h3
        · exact absurd (by linarith : q ≤ -sentinel) h1
      simp [h1, h2, negateSample]

/-- Claim C9: a 32-bit single-channel float depth buffer in which every
sample is NaN or at/beyond the no-data sentinel (magnitude ≥ 3.402e38)
decodes to the all-white 8-bit grayscale image: every output pixel is
255. -/
theorem C9_depth_all_sentinel (buf : List DepthSample)
    (h : ∀ s ∈ buf, atSentinel s = true) :
    decodeDepth buf = List.replicate buf.length 255 := by
  have hflip : ∀ a ∈ flippedDepth buf, a = DepthSample.nan := by
    intro a ha
    unfold flippedDepth at ha
    rw [List.map_map] at ha
    rcases List.mem_map.mp ha with ⟨s, hs, rfl⟩
    exact flipped_nan_of_atSentinel s (h s hs)
  have hfilter : (flippedDepth buf).filter isFiniteNeg = [] := by
    rw [List.filter_eq_nil_iff]
    intro a ha
    rw [hflip a ha]
    simp [isFiniteNeg]
  unfold decodeDepth
  rw [hfilter]
  simp [List.map_const']

/-- Witness for C9 at a concrete all-sentinel buffer. -/
theorem C9_depth_all_sentinel_witness :
    (∀ s ∈ wBuf, atSentinel s = true) ∧
      decodeDepth wBuf = List.replicate 3 255 :=
  ⟨by decide, C9_depth_all_sentinel wBuf (by decide)⟩

/-- With `allow_preview` unset, entries whose type is not `output`
never change the per-node accumulator. -/
theorem processNode_no_output (imgs : List ArtifactRef)
    (h : ∀ a ∈ imgs, a.atype ≠ some "output") :
    processNode false imgs = none := by
  suffices hgen : ∀ l : List ArtifactRef,
      (∀ a ∈ l, a.atype ≠ some "output") →
      ∀ acc, l.foldl
        (fun acc img =>
          match img.filename, img.subfolder, img.atype with
          | some f, some sf, some ty =>
              let acc1 := if false && ty == "temp" then some (f, sf, ty) else acc
              if ty == "output" then some (f, sf, ty) else acc1
          | _, _, _ => acc)
        acc = acc by
    exact hgen imgs h none
  intro l
  induction l with
  | nil => intro _ acc; rfl
  | cons img rest ih =>
    intro hl acc
    have hstep : ∀ a : Option ArtifactData,
        (match img.filename, img.subfolder, img.atype with
        | some f, some sf, some ty =>
            let acc1 := if false && ty == "temp" then some (f, sf, ty) else a
            if ty == "output" then some (f, sf, ty) else acc1
        | _, _, _ => a) = a := by
      intro a
      have hty := hl img (List.mem_cons_self img rest)
      cases hf : img.filename with
      | none => rfl
      | some f =>
        cases hsf : img.subfolder with
        | none => rfl
        | some sf =>
          cases hta : img.atype with
          | none => rfl
          | some ty =>
            rw [hta] at hty
            have hbe : (ty == "output") = false := by
              cases hbe : ty == "output"
              · rfl
              · exact absurd (congrArg some (eq_of_beq hbe)) hty
            simp [hf, hsf, hta, hbe]
    rw [List.foldl_cons, hstep acc]
    exact ih (fun a ha => hl a (List.mem_cons_of_mem _ ha)) acc

/-- Claim C3 counterexample: with `allow_preview = false`, attempt 1
returning only a `temp` artifact and attempt 2 an `output` artifact,
the poll raises the no-output error — the attempt-2 `output` artifact
is never used, because polling stops at the first successful fetch. -/
theorem C3_counterexample :
    getImages false wAttReady 1 600 = .noOutput ∧
    getImages false wAttReady 1 600 ≠ .ok [("out.png", "", "output")] := by
  exact ⟨rfl, by decide⟩

/-- Claim C3 amended: within one node the artifact used is the last
acceptable entry in list order (`output`-type entries are always
acceptable, `temp`-type entries only when `allow_preview` is set, and
with `allow_preview` unset no non-`output` entry is ever used);
polling stops at the first attempt whose history fetch succeeds,
whether or not an image was recovered, and if that first successful
fetch yields no acceptable artifact the call fails with the no-output
error — as in the concrete scenario of the counterexample. -/
theorem C3_artifact_selection_amended :
    (∀ imgs f sf, processNode false
        (imgs ++ [⟨some f, some sf, some "output"⟩]) = some (f, sf, "output")) ∧
    (∀ imgs, (∀ a ∈ imgs, a.atype ≠ some "output") →
      processNode false imgs = none) ∧
    (∀ ap att h n, att 0 = .ok h →
      getImagesFrom ap att 0 (n + 1) =
        if (collectImages ap h).isEmpty then .noOutput
        else .ok (collectImages ap h)) ∧
    getImages false wAttReady 1 600 = .noOutput := by
  refine ⟨?_, processNode_no_output, ?_, rfl⟩
  · intro imgs f sf
    unfold processNode
    rw [List.foldl_append]
    rfl
  · intro ap att h n hatt
    unfold getImagesFrom
    rw [hatt]

/-- Witness for C3 amended at concrete inputs. -/
theorem C3_artifact_selection_amended_witness :
    processNode false
      ([⟨some "t", some "", some "temp"⟩] ++ [⟨some "o", some "", some "output"⟩]) =
        some ("o", "", "output") ∧
    processNode false [⟨some "t", some "", some "temp"⟩] = none ∧
    getImagesFrom false wAttEmpty 0 600 = .noOutput :=
  ⟨C3_artifact_selection_amended.1 [⟨some "t", some "", some "temp"⟩] "o" "",
   C3_artifact_selection_amended.2.1 [⟨some "t", some "", some "temp"⟩] (by decide),
   C3_artifact_selection_amended.2.2.1 false wAttEmpty ⟨[]⟩ 599 rfl⟩

/-- The poll loop only reads attempts in `[tryId, tryId + fuel)`. -/
theorem getImagesFrom_congr (ap : Bool)
    (att att' : Nat → Except String HistoryEntry) :
    ∀ fuel tryId, (∀ i, tryId ≤ i → i < tryId + fuel → att i = att' i) →
      getImagesFrom ap att tryId fuel = getImagesFrom ap att' tryId fuel := by
  intro fuel
  induction fuel with
  | zero => intro tryId _; rfl
  | succ f ih =>
    intro tryId hag
    have h0 : att tryId = att' tryId := hag tryId le_rfl (by omega)
    unfold getImagesFrom
    rw [h0]
    cases h1 : att' tryId with
    | error e =>
      cases hf : f == 0
      · simp only [hf]
        exact ih (tryId + 1) (fun i hi1 hi2 => hag i (by omega) (by omega))
      · rfl
    | ok h => rfl

/-- Claim C4: the poll loop performs at most `timeout / interval` attempts
(`600` at the default call `interval = 1`, `timeout = 600`); an error
on a non-final attempt is retried, an error on the final attempt
becomes the timeout error carrying the underlying cause, and a
successful fetch that recovers no image makes the call fail with the
no-output error. -/
theorem C4_bounded_polling :
    (∀ ap att att' iv tmo, (∀ i < tmo / iv, att i = att' i) →
      getImages ap att iv tmo = getImages ap att' iv tmo) ∧
    (∀ ap att, getImages ap att 1 600 = getImagesFrom ap att 0 600) ∧
    (∀ ap att i e fuel, att i = .error e →
      getImagesFrom ap att i (fuel + 2) = getImagesFrom ap att (i + 1) (fuel + 1)) ∧
    (∀ ap att i e, att i = .error e →
      getImagesFrom ap att i 1 = .timeoutErr e) ∧
    (∀ ap att i h fuel, att i = .ok h → collectImages ap h = [] →
      getImagesFrom ap att i (fuel + 1) = .noOutput) := by
  refine ⟨?_, ?_, ?_, ?_, ?_⟩
  · intro ap att att' iv tmo hag
    exact getImagesFrom_congr ap att att' (tmo / iv) 0
      (fun i _ hi2 => hag i (by omega))
  · intro ap att; rfl
  · intro ap att i e fuel hatt
    unfold getImagesFrom
    rw [hatt]
    rfl
  · intro ap att i e hatt
    unfold getImagesFrom
    rw [hatt]
    rfl
  · intro ap att i h fuel hatt hempty
    unfold getImagesFrom
    rw [hatt]
    simp [hempty]

/-- Witness for C4 at concrete attempt streams. -/
theorem C4_bounded_polling_witness :
    getImages false wAttOk 600 600 = getImages false wAttFirstOnly 600 600 ∧
    getImages false wAttOk 1 600 = getImagesFrom false wAttOk 0 600 ∧
    getImagesFrom false wAttErr 0 2 = getImagesFrom false wAttErr 1 1 ∧
    getImagesFrom false wAttErr 5 1 = .timeoutErr "boom" ∧
    getImagesFrom false wAttEmpty 0 8 = .noOutput :=
  ⟨C4_bounded_polling.1 false wAttOk wAttFirstOnly 600 600
    (fun i hi => by
      have hz : i = 0 := by omega
      subst hz; rfl),
   C4_bounded_polling.2.1 false wAttOk,
   C4_bounded_polling.2.2.1 false wAttErr 0 "boom" 0 rfl,
   C4_bounded_polling.2.2.2.1 false wAttErr 5 "boom" rfl,
   C4_bounded_polling.2.2.2.2 false wAttEmpty 0 ⟨[]⟩ 7 rfl rfl⟩

/-- Every path through the body of `generate` ends with `busy` cleared
by the `finally`, and never yields the busy signal. -/
theorem generateBody_props (st : OrchState) (env : GenEnv) :
    (generateBody st env).state.busy = false ∧
    (generateBody st env).outcome ≠ .busySignal := by
  unfold generateBody
  repeat' split
  all_goals simp

/-- Claim C1: if `busy` is already set, `generate` returns immediately with
the backend-busy signal, raises nothing, submits no job and leaves the
state untouched; otherwise `busy` is cleared on every exit path, and a
call entered with `busy` clear never yields the busy signal, so a
subsequent call proceeds. -/
theorem C1_busy_guard :
    (∀ st env, st.busy = true → generate st env = ⟨.busySignal, st, 0⟩) ∧
    (∀ st env, st.busy = false → (generate st env).state.busy = false) ∧
    (∀ st env, st.busy = false → (generate st env).outcome ≠ .busySignal) := by
  refine ⟨?_, ?_, ?_⟩
  · intro st env h
    simp [generate, h]
  · intro st env h
    simp only [generate, h, Bool.false_eq_true, if_false]
    exact (generateBody_props _ env).1
  · intro st env h
    simp only [generate, h, Bool.false_eq_true, if_false]
    exact (generateBody_props _ env).2

/-- Witness for C1 at a concrete busy and a concrete idle state. -/
theorem C1_busy_guard_witness :
    generate wStBusy wEnv = ⟨.busySignal, wStBusy, 0⟩ ∧
    (generate wStSafe wEnv).state.busy = false ∧
    (generate wStSafe wEnv).outcome ≠ .busySignal :=
  ⟨C1_busy_guard.1 wStBusy wEnv rfl,
   C1_busy_guard.2.1 wStSafe wEnv rfl,
   C1_busy_guard.2.2 wStSafe wEnv rfl⟩

/-- Claim C2: when the merge raises nothing and the safety screen rejects the
(nonempty) concatenation of the stored parameter values, `generate`
returns the fixed 1024×1024 fully-transparent zeroed-RGBA placeholder
together with its size, issues zero backend requests, and clears
`busy`. -/
theorem C2_safety_short_circuit (st : OrchState) (env : GenEnv) (m : String)
    (hb : st.busy = false)
    (hmerge : (generatePrompt st.template st.comfyParameters
        st.viewportBuffers st.heap (genParams st env)).2 = none)
    (hcat : concatParams st.parameters = .ok m)
    (hlen : 0 < m.length) (hsafe : isSafe m = false) :
    (generate st env).outcome = .safetyPlaceholder placeholderPixels [1024, 1024] ∧
    (generate st env).submits = 0 ∧
    (generate st env).state.busy = false ∧
    placeholderPixels = List.replicate (1024 * 1024) ((0, 0, 0, 0) : RGBA) := by
  have hgp : generatePrompt st.template st.comfyParameters st.viewportBuffers
      st.heap (genParams st env) =
      ((generatePrompt st.template st.comfyParameters st.viewportBuffers
        st.heap (genParams st env)).1, none) := by
    rw [← hmerge]
  simp only [generate, hb, Bool.false_eq_true, if_false]
  unfold generateBody
  rw [hgp]
  dsimp only
  rw [hcat]
  dsimp only
  rw [hsafe]
  simp only [hlen, decide_True, Bool.not_false, Bool.and_true, if_true]
  exact ⟨trivial, trivial, trivial, rfl⟩

/-- Witness for C2 at a concrete state with one unsafe text
parameter. -/
theorem C2_safety_short_circuit_witness :
    (generate wStUnsafe wEnv).outcome =
      .safetyPlaceholder placeholderPixels [1024, 1024] ∧
    (generate wStUnsafe wEnv).submits = 0 ∧
    (generate wStUnsafe wEnv).state.busy = false ∧
    placeholderPixels = List.replicate (1024 * 1024) ((0, 0, 0, 0) : RGBA) :=
  C2_safety_short_circuit wStUnsafe wEnv "darn\n" rfl rfl rfl
    (by decide) (by decide)

/-- Claim C10: the safety concatenation appends every stored parameter value,
not only text-valued ones — with any non-string value in the store (and
a merge that raises nothing) the concatenation raises a `TypeError`,
which the top-level handler catches and logs, so `generate` returns no
result and issues zero backend requests; dually, a call that did issue
a backend request had only string values in its parameter store. -/
theorem C10_concat_requires_strings :
    (∀ st env, st.busy = false →
      (generatePrompt st.template st.comfyParameters st.viewportBuffers
        st.heap (genParams st env)).2 = none →
      (∃ kv ∈ st.parameters, kv.2.isStr = false) →
      (generate st env).outcome = .errorLogged "TypeError: can only concatenate str" ∧
      (generate st env).submits = 0 ∧
      (generate st env).state.busy = false) ∧
    (∀ st env, (generate st env).submits ≠ 0 →
      ∀ kv ∈ st.parameters, kv.2.isStr = true) := by
  constructor
  · intro st env hb hmerge hns
    have hgp : generatePrompt st.template st.comfyParameters st.viewportBuffers
        st.heap (genParams st env) =
        ((generatePrompt st.template st.comfyParameters st.viewportBuffers
          st.heap (genParams st env)).1, none) := by
      rw [← hmerge]
    have hcat : concatParams st.parameters =
        .error "TypeError: can only concatenate str" :=
      concatParamsAux_error st.parameters "" hns
    simp only [generate, hb, Bool.false_eq_true, if_false]
    unfold generateBody
    rw [hgp]
    dsimp only
    rw [hcat]
    exact ⟨rfl, rfl, rfl⟩
  · intro st env hsub
    by_cases hb : st.busy = true
    · simp [generate, hb] at hsub
    · rw [Bool.not_eq_true] at hb
      simp only [generate, hb, Bool.false_eq_true, if_false] at hsub
      unfold generateBody at hsub
      split at hsub
      · simp at hsub
      · rename_i heap1 hgp
        split at hsub
        · simp at hsub
        · rename_i merged hcat
          exact concatParamsAux_ok st.parameters "" merged hcat

/-- Witness for C10: a store holding one numeric parameter makes
`generate` log the `TypeError` and return without submitting; a store
with only string values that did submit satisfies the string-only
consequence. -/
theorem C10_concat_requires_strings_witness :
    ((generate wStFloat wEnv).outcome =
      .errorLogged "TypeError: can only concatenate str" ∧
    (generate wStFloat wEnv).submits = 0 ∧
    (generate wStFloat wEnv).state.busy = false) ∧
    (∀ kv ∈ wStSafe.parameters, kv.2.isStr = true) :=
  ⟨C10_concat_requires_strings.1 wStFloat wEnv rfl rfl
      ⟨("strength", .vnum 7), by decide, rfl⟩,
   C10_concat_requires_strings.2 wStSafe wEnv (by decide)⟩

/-- Reading back the element just written by `List.set`. -/
theorem get?_set_self {α : Type} :
    ∀ (l : List α) (i : Nat) (a : α), i < l.length →
      (l.set i a).get? i = some a := by
  intro l
  induction l with
  | nil => intro i a h; simp at h
  | cons x rest ih =>
    intro i a h
    cases i with
    | zero => rfl
    | succ j =>
      simp only [List.set, List.get?]
      exact ih j a (by simpa using h)

/-- Claim C6 counterexample: merging the bound parameter `prompt` with the
value `"new"` into a template whose stored slot holds `"old"` changes
the stored template graph — the shallow `dict.copy()` shares the node
objects, so the stored template is not byte-for-byte unchanged across
the merge. -/
theorem C6_counterexample :
    derefTemplate wTmpl6
        (generatePrompt wTmpl6 [wSpec6] [] wHeap6 [("prompt", .vstr "new")]).1 ≠
      derefTemplate wTmpl6 wHeap6 := by
  decide

/-- Claim C6 amended: the merge produces a fresh top-level mapping whose node
objects are shared with the stored template, so merging a bound
non-image parameter writes the merged value through to the shared node
(`heapSetInput`), and whenever that value differs from the one the slot
holds, the stored template graph after the merge differs from the one
before; only the top-level id-to-reference mapping is left unchanged. -/
theorem C6_template_mutation_amended :
    (∀ tmpl vp heap (p : ParamSpec) v cid ref,
      p.control_id = some cid → (p.ptype == "image") = false →
      dictGet tmpl cid = some ref →
      generatePrompt tmpl [p] vp heap [(p.name, v)] =
        (heapSetInput heap ref p.input_name v, none)) ∧
    (∀ (tmpl : CTemplate) (heap : Heap) ref iname v w key n,
      (key, ref) ∈ tmpl → heap.get? ref = some n →
      dictGet n.inputs iname = some w → w ≠ v →
      derefTemplate tmpl (heapSetInput heap ref iname v) ≠
        derefTemplate tmpl heap) := by
  constructor
  · intro tmpl vp heap p v cid ref hcid hpt href
    unfold generatePrompt mergeOne
    simp only [beq_self_eq_true, if_true, hcid, hpt, href,
      Bool.false_eq_true, if_false]
    rfl
  · intro tmpl heap ref iname v w key n hmem hn hw hne heq
    have hlt : ref < heap.length := by
      rcases List.get?_eq_some.mp hn with ⟨hl, _⟩
      exact hl
    have hset : (heapSetInput heap ref iname v).get? ref =
        some { n with inputs := dictSet n.inputs iname v } := by
      unfold heapSetInput
      rw [hn]
      exact get?_set_self heap ref _ hlt
    rcases List.mem_iff_get.mp hmem with ⟨i, hi⟩
    have h1 := congrArg (fun l => l.get? i.1) heq
    have hti : tmpl.get? i.1 = some (key, ref) := by
      rw [List.get?_eq_get i.2]
      exact congrArg some hi
    simp only [derefTemplate, List.get?_map, hti, Option.map_some'] at h1
    have h2 : (heapSetInput heap ref iname v).get? ref = heap.get? ref := by
      have := congrArg Prod.snd (Option.some.inj h1)
      simpa using this
    rw [hset, hn] at h2
    have h3 : dictSet n.inputs iname v = n.inputs :=
      congrArg CNode.inputs (Option.some.inj h2)
    have h4 : dictGet (dictSet n.inputs iname v) iname = some v :=
      dictGet_dictSet n.inputs iname v
    rw [h3, hw] at h4
    exact hne (Option.some.inj h4)

/-- Witness for C6 amended at the counterexample's concrete template. -/
theorem C6_template_mutation_amended_witness :
    generatePrompt wTmpl6 [wSpec6] [] wHeap6 [("prompt", .vstr "new")] =
      (heapSetInput wHeap6 0 "text" (.vstr "new"), none) ∧
    derefTemplate wTmpl6 (heapSetInput wHeap6 0 "text" (.vstr "new")) ≠
      derefTemplate wTmpl6 wHeap6 :=
  ⟨C6_template_mutation_amended.1 wTmpl6 [] wHeap6 wSpec6 (.vstr "new") "3" 0
      rfl rfl rfl,
   C6_template_mutation_amended.2 wTmpl6 wHeap6 0 "text" (.vstr "new")
      (.vstr "old") "3" ⟨"CAVA(text): prompt", [("text", .vstr "old")]⟩
      (by decide) rfl rfl (by decide)⟩

/-- Claim C8 counterexample: with specs `prompt` and `prompt2` and the node
titled `CAVA(text): prompt2` listed before `CAVA(text): prompt`, both
specs end up with `control_id = "2"` — two different specs share a
control id, and `prompt2` is bound to node `"2"` even though the first
node whose title matches its control name is node `"1"`. -/
theorem C8_counterexample :
    (identifyControls wJson8 wSpecs8).map ParamSpec.control_id =
      [some "2", some "2"] ∧
    pyIn "CAVA(text): prompt2" "CAVA(text): prompt2" = true := by
  decide

/-- Lemma: `lastMatchAux` is `lastTitleMatch` with the accumulator as
fallback. -/
theorem lastMatchAux_or (cn : String) :
    ∀ (json : List (String × CNode)) (acc : Option String),
      lastMatchAux acc json cn = (lastTitleMatch json cn).or acc := by
  intro json
  induction json with
  | nil => intro acc; cases acc <;> rfl
  | cons kv rest ih =>
    intro acc
    have hl : lastMatchAux acc (kv :: rest) cn =
        lastMatchAux (if pyIn kv.2.title cn then some kv.1 else acc) rest cn := rfl
    have hr : lastTitleMatch (kv :: rest) cn =
        lastMatchAux (if pyIn kv.2.title cn then some kv.1 else none) rest cn := rfl
    rw [hl, hr, ih, ih]
    cases h : lastTitleMatch rest cn <;>
      cases hp : pyIn kv.2.title cn <;>
        simp [Option.or]

/-- Claim C8 amended: `_identifyControls` binds every spec to the **last**
node (in template iteration order) whose title occurs as a substring of
the spec's control name, leaving the spec untouched (only warned about)
when no node matches; consequently two different specs can be assigned
the same `control_id` whenever both control names contain a common node
title, as in the counterexample's concrete template. -/
theorem C8_binding_amended :
    (∀ json specs, identifyControls json specs = specs.map (fun p =>
        match lastTitleMatch json p.control_name with
        | some k => { p with control_id := some k }
        | none => p)) ∧
    (identifyControls wJson8 wSpecs8).map ParamSpec.control_id =
      [some "2", some "2"] := by
  constructor
  · intro json
    induction json with
    | nil =>
      intro specs
      exact (List.map_id' specs).symm
    | cons kv rest ih =>
      intro specs
      have h0 : identifyControls (kv :: rest) specs =
          identifyControls rest (specs.map (fun p =>
            if pyIn kv.2.title p.control_name then { p with control_id := some kv.1 }
            else p)) := rfl
      rw [h0, ih, List.map_map]
      refine List.map_congr_left ?_
      intro p _
      simp only [Function.comp]
      have hc : ∀ q : ParamSpec,
          (if pyIn kv.2.title p.control_name then { p with control_id := some kv.1 }
            else p).control_name = p.control_name := by
        intro q; split <;> rfl
      have hcons : lastTitleMatch (kv :: rest) p.control_name =
          (lastTitleMatch rest p.control_name).or
            (if pyIn kv.2.title p.control_name then some kv.1 else none) := by
        have : lastTitleMatch (kv :: rest) p.control_name =
            lastMatchAux (if pyIn kv.2.title p.control_name then some kv.1 else none)
              rest p.control_name := rfl
        rw [this, lastMatchAux_or]
      cases h : lastTitleMatch rest p.control_name with
      | some x =>
        cases hp : pyIn kv.2.title p.control_name <;>
          simp [hp, h, hcons, Option.or]
      | none =>
        cases hp : pyIn kv.2.title p.control_name <;>
          simp [hp, h, hcons, Option.or]
  · decide
